import Mathlib

/-!
Verification development for the claude-code-plus repository.

We give a shallow embedding of the two source files:
  src/ccp/mcp_server.py  — alias resolution (get_mapped_model)
  src/ccp/cli.py         — process supervisor (start / stop / status)
and prove the frozen claims about them.

Modelling conventions:
  * the file system facts the supervisor touches (the PID record file and
    the log file) are a record FS of optional string contents
    (none = the file does not exist);
  * operating-system outcomes that the code observes through exceptions
    (os.kill results, subprocess outcomes, shutil.which) are oracle
    functions/fields packaged in a world record, so each command is a pure
    function from world and FS to result and FS;
  * Python int(...) parsing and str(...) printing of PIDs are embedded as
    executable Lean functions pyIntParse / pyStr.
-/

namespace ccp

/-! String helpers: the Python substring test and lower casing. -/

/-- Contiguous-substring test on char lists: does `l` contain `pat`?
Embeds the Python `pat in s` test. -/
def containsSub (pat : List Char) : List Char → Bool
  | [] => pat.isEmpty
  | c :: t => pat.isPrefixOf (c :: t) || containsSub pat t

/-- Python `pat in s` on strings. -/
def strContainsSub (s pat : String) : Bool :=
  containsSub pat.data s.data

/-- Python `s.lower()` (ASCII case folding, enough for the alias domain). -/
def pyLower (s : String) : String :=
  String.mk (s.data.map Char.toLower)

/-! Python `int(...)` parsing of the PID record.

Python `int(s)` strips whitespace, allows one leading sign, and then decimal
digits with single underscores between digits.  The code calls
`int(f.read().strip())`, so we compose an explicit strip with the digit
parse. -/

/-- Strip leading and trailing whitespace from a char list (Python str.strip). -/
def pyStrip (l : List Char) : List Char :=
  ((l.dropWhile Char.isWhitespace).reverse.dropWhile Char.isWhitespace).reverse

/-- Digit-sequence reader: accumulator, flag "previous char was an
underscore", remaining chars.  Underscores must be single and between
digits, as in Python numeric literals accepted by `int`. -/
def pyDigitsGo : Nat → Bool → List Char → Option Nat
  | acc, false, [] => some acc
  | _, true, [] => none
  | acc, afterUnd, c :: t =>
    if c.isDigit then pyDigitsGo (acc * 10 + (c.toNat - 48)) false t
    else if c = '_' && !afterUnd then pyDigitsGo acc true t
    else none

/-- Parse a nonempty digit sequence (first char must be a digit). -/
def pyDigits (l : List Char) : Option Nat :=
  match l with
  | [] => none
  | c :: t => if c.isDigit then pyDigitsGo (c.toNat - 48) false t else none

/-- Embedding of Python `int(s.strip())` as used on the PID record. -/
def pyIntParse (s : String) : Option Int :=
  match pyStrip s.data with
  | [] => none
  | c :: r =>
    if c = '+' then (pyDigits r).map (fun n => (n : Int))
    else if c = '-' then (pyDigits r).map (fun n => -(n : Int))
    else (pyDigits (c :: r)).map (fun n => (n : Int))

/-! Python `str(...)` printing of a (nonnegative) PID. -/

/-- The decimal digit characters. -/
def decChars : List Char := "0123456789".data

/-- Character for one decimal digit. -/
def digitChar (d : Nat) : Char :=
  match d with
  | 0 => '0' | 1 => '1' | 2 => '2' | 3 => '3' | 4 => '4'
  | 5 => '5' | 6 => '6' | 7 => '7' | 8 => '8' | 9 => '9'
  | _ => '*'

/-- Reversed decimal digits of `n`, fuel-driven so that it is structurally
recursive (and hence reduces inside the kernel). -/
def natDigitsRevFuel : Nat → Nat → List Char
  | 0, _ => []
  | fuel + 1, n => if n = 0 then [] else digitChar (n % 10) :: natDigitsRevFuel fuel (n / 10)

/-- Embedding of Python `str(pid)` for a nonnegative pid. -/
def pyStr (n : Nat) : String :=
  if n = 0 then "0" else String.mk (natDigitsRevFuel (n + 1) n).reverse

/-! Alias resolver (src/ccp/mcp_server.py lines 27-38). -/

/-- Module-level configuration of the MCP server: `PREFERRED_PROVIDER`
holds the already-lowercased environment value (line 27 applies
`.lower()`), `BIG_MODEL` and `SMALL_MODEL` the model slot values. -/
structure ModelEnv where
  PREFERRED_PROVIDER : String
  BIG_MODEL : String
  SMALL_MODEL : String
  deriving DecidableEq, Repr

/-- Lines 27-29: read the three settings with their defaults, lowercasing
the preferred provider. -/
def mkModelEnv (pp big small : Option String) : ModelEnv :=
  { PREFERRED_PROVIDER := pyLower (pp.getD "openai")
    BIG_MODEL := big.getD "gpt-4.1"
    SMALL_MODEL := small.getD "gpt-4.1-mini" }

/-- Function `get_mapped_model` (lines 31-38): map an alias to a full model
name based on provider preference. -/
def get_mapped_model (e : ModelEnv) (model_alias : String) : String :=
  if strContainsSub (pyLower model_alias) "haiku" then
    if e.PREFERRED_PROVIDER = "google" then "gemini/" ++ e.SMALL_MODEL
    else "openai/" ++ e.SMALL_MODEL
  else if strContainsSub (pyLower model_alias) "sonnet" then
    if e.PREFERRED_PROVIDER = "google" then "gemini/" ++ e.BIG_MODEL
    else "openai/" ++ e.BIG_MODEL
  else model_alias

/-- The provider namespace token the spec speaks about: the secondary
token gemini exactly for the secondary provider google, else openai. -/
def providerQualifier (e : ModelEnv) : String :=
  if e.PREFERRED_PROVIDER = "google" then "gemini" else "openai"

/-- Default environment (no overrides). -/
def envDefault : ModelEnv := mkModelEnv none none none

/-! Process supervisor (src/ccp/cli.py).

The two on-disk artefacts at fixed paths are `.ccp.pid` (PID_FILE) and
`.ccp.log` (LOG_FILE); we model their contents. -/

/-- Supervisor-visible file system: contents of the PID record file and of
the log file, `none` when the file does not exist. -/
structure FS where
  pidFile : Option String
  logFile : Option String
  deriving DecidableEq, Repr

/-- Outcome the code can observe from `os.kill(pid, SIGTERM)` via its
except clauses (lines 296-303). -/
inductive KillResult where
  | ok
  | processLookupError
  | otherError
  deriving DecidableEq, Repr

/-- Result of the `stop` command, one constructor per reachable exit of the
Python function. -/
inductive StopResult where
  | notRunning
  | corruptState
  | stopped
  | stoppedWarning
  | failedOther
  deriving DecidableEq, Repr

/-- Whether the given `stop` exit carries `sys.exit(1)` in the source:
`notRunning` (line 286), `corruptState` (line 294) and the generic kill
failure (line 303) do; the success and the already-dead warning paths
return normally. -/
def stopIsError : StopResult → Bool
  | .notRunning => true
  | .corruptState => true
  | .stopped => false
  | .stoppedWarning => false
  | .failedOther => true

/-- Command `stop` (lines 278-307).  `kill` is the OS oracle for
`os.kill(pid, SIGTERM)`.  The second `try` has a `finally` deleting the PID
file, so every path through it removes the record. -/
def stop (kill : Int → KillResult) (fs : FS) : StopResult × FS :=
  match fs.pidFile with
  | none => (.notRunning, fs)
  | some content =>
    match pyIntParse content with
    | none => (.corruptState, { fs with pidFile := none })
    | some pid =>
      match kill pid with
      | .ok => (.stopped, { fs with pidFile := none })
      | .processLookupError => (.stoppedWarning, { fs with pidFile := none })
      | .otherError => (.failedOther, { fs with pidFile := none })

/-- Helper `is_server_really_running` (lines 44-62): checks the PID file,
parses the PID and probes it with `os.kill(pid, 0)`; a `ValueError`,
`FileNotFoundError` or `ProcessLookupError` deletes the stale file and
reports not running.  `alive pid` is the oracle for the probe succeeding. -/
def is_server_really_running (alive : Int → Bool) (fs : FS) : Bool × FS :=
  match fs.pidFile with
  | none => (false, fs)
  | some content =>
    match pyIntParse content with
    | none => (false, { fs with pidFile := none })
    | some pid =>
      if alive pid then (true, fs)
      else (false, { fs with pidFile := none })

/-- Derived server state reported by `status`. -/
inductive ServerStatus where
  | running (pid : Int)
  | stopped
  deriving DecidableEq, Repr

/-- Server-status part of `status` (lines 383-399): the liveness check,
then on success a re-read of the PID file to print the PID.  The re-read
is outside any `try`, so an unreadable file there would raise — modelled
by the `Except.error` outcome (unreachable after a successful check).
The configuration-display part of `status` (lines 408-427) only reads the
settings file and is modelled separately by `renderEnvLine`. -/
def status (alive : Int → Bool) (fs : FS) : Except Unit ServerStatus × FS :=
  let p := is_server_really_running alive fs
  if p.1 then
    match p.2.pidFile with
    | none => (.error (), p.2)
    | some content =>
      match pyIntParse content with
      | none => (.error (), p.2)
      | some pid => (.ok (.running pid), p.2)
  else (.ok .stopped, p.2)

/-- OS oracle for one invocation of `start`:
  * `alive` — the `os.kill(pid, 0)` probe used by the liveness check;
  * `venvExists` — `os.path.isdir(".venv")` (line 179);
  * `venvCreateOk` — the `python3 -m venv` subprocess succeeds (line 182);
  * `pipOk` — the `pip install -e .` subprocess succeeds (line 191);
  * `spawn` — `subprocess.Popen` for the server: `some pid` on success,
    `none` when it raises (line 231);
  * `fgRunOk` — the foreground `subprocess.run` returns or is interrupted
    by the user (`true`) versus raising another exception (line 218);
  * `clientFound` — `shutil.which("claude")` is non-null (line 257). -/
structure StartWorld where
  alive : Int → Bool
  venvExists : Bool
  venvCreateOk : Bool
  pipOk : Bool
  spawn : Option Nat
  fgRunOk : Bool
  clientFound : Bool

/-- Externally visible launch-type effects of `start`. -/
inductive Ev where
  | venvCreate
  | pipInstall
  | spawnServer
  | runForeground
  | launchClient
  deriving DecidableEq, Repr

/-- Environment and dependency setup (lines 177-200): create `.venv` when
absent (abort on failure), then `pip install` (abort on failure).  Returns
whether setup succeeded together with the attempted sub-steps. -/
def envSetup (w : StartWorld) : Bool × List Ev :=
  if w.venvExists then
    (w.pipOk, [Ev.pipInstall])
  else if w.venvCreateOk then
    (w.pipOk, [Ev.venvCreate, Ev.pipInstall])
  else
    (false, [Ev.venvCreate])

/-- Result of the `start` command, one constructor per reachable exit. -/
inductive StartResult where
  | invalidArgs
  | alreadyRunning
  | envSetupFailed
  | foregroundDone
  | foregroundFailed
  | launchFailed
  | backgroundStarted (pid : Nat)
  | clientNotFound
  | clientDone
  deriving DecidableEq, Repr

/-- Exit code of each `start` exit in the source: `sys.exit(1)` on the
flag conflict (line 167), setup failures (lines 186, 200), foreground and
background launch failures (lines 223, 247) and a missing client
executable (line 261); all other paths return with code 0. -/
def startExitCode : StartResult → Nat
  | .invalidArgs => 1
  | .alreadyRunning => 0
  | .envSetupFailed => 1
  | .foregroundDone => 0
  | .foregroundFailed => 1
  | .launchFailed => 1
  | .backgroundStarted _ => 0
  | .clientNotFound => 1
  | .clientDone => 0

/-- Client launch section (lines 249-275): check `shutil.which("claude")`
(exit 1 if absent, server left running), else run the client; every client
outcome (normal, interrupt, error) falls through the `finally` and returns
normally. -/
def clientLaunch (w : StartWorld) (fs : FS) (evs : List Ev) : StartResult × FS × List Ev :=
  if w.clientFound then (.clientDone, fs, evs ++ [Ev.launchClient])
  else (.clientNotFound, fs, evs)

/-- Command `start` (lines 142-275).  Control flow of the source:
  1. reject `--foreground` together with `--auto` (lines 165-167);
  2. liveness check; if running and not `--auto`, print `status` and exit
     0 (lines 170-174); if running and `--auto`, skip to the client launch;
  3. otherwise environment setup, aborting on failure;
  4. foreground mode: run attached and return (lines 213-224);
  5. background mode: `open(LOG_FILE, "wb")` (truncating the log), spawn
     the server, write `str(pid)` to the PID file (lines 230-236); a spawn
     failure exits 1 with the log already truncated and no record written;
  6. `--auto`: client launch section. -/
def start (w : StartWorld) (foreground auto : Bool) (fs : FS) :
    StartResult × FS × List Ev :=
  if foreground && auto then (.invalidArgs, fs, [])
  else
    let p := is_server_really_running w.alive fs
    if p.1 then
      if auto then clientLaunch w p.2 []
      else
        let s := status w.alive p.2
        (.alreadyRunning, s.2, [])
    else
      let e := envSetup w
      if e.1 then
        if foreground then
          if w.fgRunOk then (.foregroundDone, p.2, e.2 ++ [Ev.runForeground])
          else (.foregroundFailed, p.2, e.2 ++ [Ev.runForeground])
        else
          let fs2 : FS := { p.2 with logFile := some "" }
          match w.spawn with
          | none => (.launchFailed, fs2, e.2 ++ [Ev.spawnServer])
          | some pid =>
            let fs3 : FS := { fs2 with pidFile := some (pyStr pid) }
            if auto then clientLaunch w fs3 (e.2 ++ [Ev.spawnServer])
            else (.backgroundStarted pid, fs3, e.2 ++ [Ev.spawnServer])
      else (.envSetupFailed, p.2, e.2)

/-- A world in which everything succeeds and no prior process is alive. -/
def wAllOk : StartWorld :=
  { alive := fun _ => false
    venvExists := true
    venvCreateOk := true
    pipOk := true
    spawn := some 7
    fgRunOk := true
    clientFound := true }

/-- World in which the probe reports every PID alive. -/
def wAlive : StartWorld := { wAllOk with alive := fun _ => true }

/-! Configuration display (src/ccp/cli.py lines 408-427).

The `status` command ends by printing each line of the `.env` file, masking
credential values.  Per line the code strips it, skips blanks and comments,
splits at the first `=` (a `ValueError` when there is none prints the line
verbatim), and masks values of keys containing `API_KEY` when the value is
longer than 8 characters. -/

/-- Python `line.split("=", 1)`: `none` models the `ValueError` raised when
there is no `=`, otherwise the parts before and after the first `=`. -/
def splitEqList : List Char → Option (List Char × List Char)
  | [] => none
  | c :: t =>
    if c = '=' then some ([], t)
    else
      match splitEqList t with
      | none => none
      | some (k, v) => some (c :: k, v)

/-- A single-quote character as a string (the masked value is printed
inside quotes). -/
def squote : String := String.singleton (Char.ofNat 39)

/-- Rendering of one `.env` line by the configuration display:
`none` when the line is skipped (blank or comment), otherwise the printed
line. -/
def renderEnvLine (line : String) : Option String :=
  let l : List Char := pyStrip line.data
  if l.isEmpty then none
  else if l.head? = some '#' then none
  else
    match splitEqList l with
    | none => some (String.mk l)
    | some (k, v) =>
      if strContainsSub (String.mk k) "API_KEY" && v.length > 8 then
        some (String.mk k ++ "=" ++ squote ++ String.mk (v.take 4) ++ "..."
          ++ String.mk (v.drop (v.length - 4)) ++ squote)
      else some (String.mk l)

/-! Sanity checks of the embedding on concrete inputs. -/

example : strContainsSub "claude-3-haiku" "haiku" = true := by decide
example : strContainsSub "gpt-4o" "haiku" = false := by decide
example : strContainsSub "x" "" = true := by decide

example : pyIntParse "12345" = some 12345 := by decide
example : pyIntParse " 42\n" = some 42 := by decide
example : pyIntParse "-7" = some (-7) := by decide
example : pyIntParse "1_0" = some 10 := by decide
example : pyIntParse "1__0" = none := by decide
example : pyIntParse "abc" = none := by decide
example : pyIntParse "" = none := by decide

example : pyStr 0 = "0" := by decide
example : pyStr 7 = "7" := by decide
example : pyStr 2026 = "2026" := by decide

example : get_mapped_model envDefault "claude-3-haiku" = "openai/gpt-4.1-mini" := by decide
example : get_mapped_model envDefault "SONNET" = "openai/gpt-4.1" := by decide
example : get_mapped_model envDefault "gpt-4o" = "gpt-4o" := by decide
example : get_mapped_model (mkModelEnv (some "Google") none none) "sonnet" = "gemini/gpt-4.1" := by
  decide

example :
    start wAllOk false false { pidFile := none, logFile := some "old" } =
      (.backgroundStarted 7, { pidFile := some "7", logFile := some "" },
        [Ev.pipInstall, Ev.spawnServer]) := by decide

example :
    stop (fun _ => .ok) { pidFile := some "42", logFile := none } =
      (.stopped, { pidFile := none, logFile := none }) := by decide

example :
    status (fun _ => false) { pidFile := some "42", logFile := none } =
      (.ok .stopped, { pidFile := none, logFile := none }) := rfl

example :
    renderEnvLine "OPENAI_API_KEY=abcdefghijklmnopqrstuvwxyz012345" =
      some ("OPENAI_API_KEY=" ++ squote ++ "abcd" ++ "..." ++ "2345" ++ squote) := by decide
example : renderEnvLine "PREFERRED_PROVIDER=google" = some "PREFERRED_PROVIDER=google" := by
  decide
example : renderEnvLine "malformed line" = some "malformed line" := by decide
example : renderEnvLine "# comment" = none := by decide
example : renderEnvLine "   " = none := by decide
example : renderEnvLine "OPENAI_API_KEY=short" = some "OPENAI_API_KEY=short" := by decide

/-! Round trip: the PID file written by `start` parses back to the PID.

`start` writes `str(process.pid)`; `stop`, `status` and the liveness check
read it with `int(...)`.  We prove `pyIntParse (pyStr n) = some n`. -/

theorem digitChar_mem (d : Nat) (h : d < 10) : digitChar d ∈ decChars := by
  interval_cases d <;> decide

theorem decChars_facts :
    ∀ c ∈ decChars,
      c.isDigit = true ∧ c.isWhitespace = false ∧ c ≠ '+' ∧ c ≠ '-' ∧ c ≠ '_' := by
  decide

theorem mem_natDigitsRevFuel :
    ∀ fuel n c, c ∈ natDigitsRevFuel fuel n → c ∈ decChars := by
  intro fuel
  induction fuel with
  | zero => intro n c hc; simp [natDigitsRevFuel] at hc
  | succ f ih =>
    intro n c hc
    by_cases hn : n = 0
    · simp [natDigitsRevFuel, hn] at hc
    · simp [natDigitsRevFuel, hn] at hc
      rcases hc with hc | hc
      · exact hc ▸ digitChar_mem (n % 10) (Nat.mod_lt n (by omega))
      · exact ih (n / 10) c hc

theorem dropWhile_ws_eq_self (l : List Char)
    (h : ∀ c ∈ l, c.isWhitespace = false) :
    l.dropWhile Char.isWhitespace = l := by
  cases l with
  | nil => rfl
  | cons c t =>
    have hc := h c (List.mem_cons_self c t)
    simp [List.dropWhile, hc]

theorem pyStrip_eq_self (l : List Char)
    (h : ∀ c ∈ l, c.isWhitespace = false) :
    pyStrip l = l := by
  unfold pyStrip
  rw [dropWhile_ws_eq_self l h]
  rw [dropWhile_ws_eq_self l.reverse (by intro c hc; exact h c (List.mem_reverse.mp hc))]
  exact List.reverse_reverse l

theorem pyDigitsGo_digits :
    ∀ (l : List Char) (acc : Nat), (∀ c ∈ l, c.isDigit = true) →
      pyDigitsGo acc false l =
        some (l.foldl (fun a c => a * 10 + (c.toNat - 48)) acc) := by
  intro l
  induction l with
  | nil => intro acc _; rfl
  | cons c t ih =>
    intro acc h
    have hc := h c (List.mem_cons_self c t)
    simp [pyDigitsGo, hc, List.foldl_cons]
    exact ih _ (by intro x hx; exact h x (List.mem_cons_of_mem c hx))

theorem foldl_natDigitsRevFuel :
    ∀ (fuel n acc : Nat), n ≤ fuel →
      ((natDigitsRevFuel fuel n).reverse).foldl (fun a c => a * 10 + (c.toNat - 48)) acc =
        acc * 10 ^ (natDigitsRevFuel fuel n).length + n := by
  intro fuel
  induction fuel with
  | zero =>
    intro n acc h
    have hn : n = 0 := Nat.le_zero.mp h
    subst hn
    simp [natDigitsRevFuel]
  | succ f ih =>
    intro n acc h
    by_cases hn : n = 0
    · subst hn; simp [natDigitsRevFuel]
    · have hpos : 0 < n := Nat.pos_of_ne_zero hn
      have hdiv : n / 10 ≤ f := by
        have hlt : n / 10 < n := Nat.div_lt_self hpos (by norm_num)
        omega
      have hd : (digitChar (n % 10)).toNat - 48 = n % 10 := by
        have h10 : n % 10 < 10 := Nat.mod_lt n (by omega)
        interval_cases h : (n % 10) <;> simp_all [digitChar]
      simp only [natDigitsRevFuel, hn, if_false, List.reverse_cons, List.foldl_append,
        List.foldl_cons, List.foldl_nil, List.length_cons]
      rw [ih (n / 10) acc hdiv, hd]
      have hmod := Nat.div_add_mod n 10
      ring_nf
      omega

theorem pyDigits_natDigitsRevFuel (n : Nat) (h : 0 < n) :
    pyDigits ((natDigitsRevFuel (n + 1) n).reverse) = some n := by
  have hne : natDigitsRevFuel (n + 1) n ≠ [] := by
    simp [natDigitsRevFuel, Nat.pos_iff_ne_zero.mp h]
  have hmem : ∀ c ∈ (natDigitsRevFuel (n + 1) n).reverse, c ∈ decChars := by
    intro c hc
    exact mem_natDigitsRevFuel (n + 1) n c (List.mem_reverse.mp hc)
  rcases hl : (natDigitsRevFuel (n + 1) n).reverse with _ | ⟨c, t⟩
  · exact absurd (by simpa using congrArg List.reverse hl) hne
  · have hcd : c.isDigit = true := by
      have := decChars_facts c (hmem c (by rw [hl]; exact List.mem_cons_self c t))
      exact this.1
    have htd : ∀ x ∈ t, x.isDigit = true := by
      intro x hx
      have := decChars_facts x (hmem x (by rw [hl]; exact List.mem_cons_of_mem c hx))
      exact this.1
    have hfold :
        ((natDigitsRevFuel (n + 1) n).reverse).foldl
            (fun a c => a * 10 + (c.toNat - 48)) 0 = n := by
      rw [foldl_natDigitsRevFuel (n + 1) n 0 (by omega)]
      simp
    simp only [pyDigits, hcd, if_true]
    rw [pyDigitsGo_digits t (c.toNat - 48) htd]
    rw [hl] at hfold
    simp only [List.foldl_cons] at hfold
    simp only [Nat.zero_mul, Nat.zero_add] at hfold
    rw [hfold]

theorem pyIntParse_pyStr (n : Nat) : pyIntParse (pyStr n) = some (n : Int) := by
  by_cases hn : n = 0
  · subst hn; decide
  · have hpos : 0 < n := Nat.pos_of_ne_zero hn
    have hmem : ∀ c ∈ (natDigitsRevFuel (n + 1) n).reverse, c ∈ decChars := by
      intro c hc
      exact mem_natDigitsRevFuel (n + 1) n c (List.mem_reverse.mp hc)
    have hdata : (pyStr n).data = (natDigitsRevFuel (n + 1) n).reverse := by
      simp [pyStr, hn]
    have hstrip : pyStrip (pyStr n).data = (natDigitsRevFuel (n + 1) n).reverse := by
      rw [hdata]
      exact pyStrip_eq_self _ (by
        intro c hc
        exact (decChars_facts c (hmem c hc)).2.1)
    have hne : natDigitsRevFuel (n + 1) n ≠ [] := by
      simp [natDigitsRevFuel, hn]
    rcases hl : (natDigitsRevFuel (n + 1) n).reverse with _ | ⟨c, t⟩
    · exact absurd (by simpa using congrArg List.reverse hl) hne
    · have hcm : c ∈ decChars := hmem c (by rw [hl]; exact List.mem_cons_self c t)
      have hfacts := decChars_facts c hcm
      have hdig := pyDigits_natDigitsRevFuel n hpos
      rw [hl] at hdig
      unfold pyIntParse
      rw [hstrip, hl]
      simp [hfacts.2.2.1, hfacts.2.2.2.1, hdig]

example : pyIntParse (pyStr 65534) = some 65534 := by
  rw [pyIntParse_pyStr]; norm_num

/-! Helper lemmas about the liveness check and start. -/

/-- After a failed liveness probe the record file is gone: either it never
existed, or the stale-cleanup branch deleted it. -/
theorem is_running_false_no_record (alive : Int → Bool) (fs : FS)
    (h : (is_server_really_running alive fs).1 = false) :
    (is_server_really_running alive fs).2.pidFile = none := by
  rcases hp : fs.pidFile with _ | c
  · simp [is_server_really_running, hp]
  · rcases hq : pyIntParse c with _ | pid
    · simp [is_server_really_running, hp, hq]
    · by_cases ha : alive pid
      · simp [is_server_really_running, hp, hq, ha] at h
      · simp [is_server_really_running, hp, hq, ha]

/-- A record holding the printed PID of a live process makes the liveness
check succeed without touching the file system. -/
theorem is_running_of_pidfile (alive : Int → Bool) (fs : FS) (pid : Nat)
    (hp : fs.pidFile = some (pyStr pid)) (ha : alive ((pid : Nat) : Int) = true) :
    is_server_really_running alive fs = (true, fs) := by
  simp [is_server_really_running, hp, pyIntParse_pyStr, ha]

/-- Under the same conditions `status` reports Running with that PID and
leaves the file system unchanged. -/
theorem status_running_of_pidfile (alive : Int → Bool) (fs : FS) (pid : Nat)
    (hp : fs.pidFile = some (pyStr pid)) (ha : alive ((pid : Nat) : Int) = true) :
    status alive fs = (.ok (.running pid), fs) := by
  simp [status, is_running_of_pidfile alive fs pid hp ha, hp, pyIntParse_pyStr]

/-- Under the same conditions a background `start` is a pure no-op that
reports the existing status. -/
theorem start_noop_of_running (w : StartWorld) (fs : FS) (pid : Nat)
    (hp : fs.pidFile = some (pyStr pid)) (ha : w.alive ((pid : Nat) : Int) = true) :
    start w false false fs = (.alreadyRunning, fs, []) := by
  simp [start, is_running_of_pidfile w.alive fs pid hp ha,
    status_running_of_pidfile w.alive fs pid hp ha]

/-- A successful background start leaves the printed PID in the record
file. -/
theorem start_background_success_pidfile (w : StartWorld) (fs fs1 : FS) (pid : Nat)
    (evs : List Ev)
    (h1 : start w false false fs = (.backgroundStarted pid, fs1, evs)) :
    fs1.pidFile = some (pyStr pid) := by
  by_cases hr : (is_server_really_running w.alive fs).1
  · simp [start, hr] at h1
  · by_cases he : (envSetup w).1
    · rcases hs : w.spawn with _ | pid2
      · simp [start, hr, he, hs] at h1
      · simp [start, hr, he, hs, Prod.mk.injEq] at h1
        obtain ⟨hpid, hfs, _⟩ := h1
        subst hpid
        rw [← hfs]
    · simp [start, hr, he] at h1

/-! Claims about the alias resolver. -/

/-- Claim C1 counterexample: the claim universally promises the big-model
mapping for every alias containing the marker sonnet, but the alias
sonnet-haiku contains sonnet and is mapped to the small model, because the
haiku test comes first in `get_mapped_model`. -/
theorem C1_counterexample :
    strContainsSub (pyLower "sonnet-haiku") "sonnet" = true ∧
    get_mapped_model envDefault "sonnet-haiku" ≠
      providerQualifier envDefault ++ "/" ++ envDefault.BIG_MODEL := by decide

/-- Claim C1 (amended): aliases containing haiku map to the small-model
slot qualified by the provider token; aliases containing sonnet but NOT
haiku map to the qualified big-model slot; aliases containing neither are
returned unchanged; and the provider token is gemini exactly when the
preferred provider is google, else openai.  (The amendment restricts the
sonnet clause to aliases not containing haiku, which the counterexample
forces.) -/
theorem C1_amended (e : ModelEnv) (a : String) :
    (strContainsSub (pyLower a) "haiku" = true →
      get_mapped_model e a = providerQualifier e ++ "/" ++ e.SMALL_MODEL) ∧
    (strContainsSub (pyLower a) "haiku" = false →
      strContainsSub (pyLower a) "sonnet" = true →
      get_mapped_model e a = providerQualifier e ++ "/" ++ e.BIG_MODEL) ∧
    (strContainsSub (pyLower a) "haiku" = false →
      strContainsSub (pyLower a) "sonnet" = false →
      get_mapped_model e a = a) ∧
    (providerQualifier e = "gemini" ↔ e.PREFERRED_PROVIDER = "google") := by
  refine ⟨?_, ?_, ?_, ?_⟩
  · intro hh
    by_cases hp : e.PREFERRED_PROVIDER = "google" <;>
      simp [get_mapped_model, providerQualifier, hh, hp]
  · intro hh hs
    by_cases hp : e.PREFERRED_PROVIDER = "google" <;>
      simp [get_mapped_model, providerQualifier, hh, hs, hp]
  · intro hh hs
    simp [get_mapped_model, hh, hs]
  · constructor
    · intro hx
      by_cases hp : e.PREFERRED_PROVIDER = "google"
      · exact hp
      · simp [providerQualifier, hp] at hx
    · intro hp
      simp [providerQualifier, hp]

/-- Witness for C1_amended at concrete inputs, one per clause. -/
theorem C1_amended_witness :
    get_mapped_model envDefault "my-Haiku" =
      providerQualifier envDefault ++ "/" ++ envDefault.SMALL_MODEL ∧
    get_mapped_model envDefault "Sonnet-4" =
      providerQualifier envDefault ++ "/" ++ envDefault.BIG_MODEL ∧
    get_mapped_model envDefault "gpt-4o" = "gpt-4o" :=
  ⟨(C1_amended envDefault "my-Haiku").1 (by decide),
   (C1_amended envDefault "Sonnet-4").2.1 (by decide) (by decide),
   (C1_amended envDefault "gpt-4o").2.2.1 (by decide) (by decide)⟩

/-- Claim C8: an alias containing both markers haiku and sonnet
(case-insensitively) resolves to the small-model mapping, because the
haiku test is performed first. -/
theorem C8_haiku_precedence (e : ModelEnv) (a : String)
    (hh : strContainsSub (pyLower a) "haiku" = true)
    (_hs : strContainsSub (pyLower a) "sonnet" = true) :
    get_mapped_model e a = providerQualifier e ++ "/" ++ e.SMALL_MODEL := by
  by_cases hp : e.PREFERRED_PROVIDER = "google" <;>
    simp [get_mapped_model, providerQualifier, hh, hp]

/-- Witness for C8 on the alias sonnet-haiku. -/
theorem C8_witness :
    get_mapped_model envDefault "sonnet-haiku" =
      providerQualifier envDefault ++ "/" ++ envDefault.SMALL_MODEL :=
  C8_haiku_precedence envDefault "sonnet-haiku" (by decide) (by decide)

/-! Claims about stop. -/

/-- Claim C3: `stop` fails with NotRunning when no record exists; an
existing record whose content does not parse as an integer fails with
CorruptState and deletes the record; otherwise the termination signal goes
to the parsed PID, an already-dead process is a warning (not an error
exit), and in the success and already-dead paths the record no longer
exists on return. -/
theorem C3_stop_error_handling (kill : Int → KillResult) (fs : FS) :
    (fs.pidFile = none →
      stop kill fs = (.notRunning, fs) ∧ stopIsError .notRunning = true) ∧
    (∀ c, fs.pidFile = some c → pyIntParse c = none →
      stop kill fs = (.corruptState, { fs with pidFile := none }) ∧
        stopIsError .corruptState = true) ∧
    (∀ c pid, fs.pidFile = some c → pyIntParse c = some pid → kill pid = .ok →
      stop kill fs = (.stopped, { fs with pidFile := none }) ∧
        stopIsError .stopped = false) ∧
    (∀ c pid, fs.pidFile = some c → pyIntParse c = some pid →
      kill pid = .processLookupError →
      stop kill fs = (.stoppedWarning, { fs with pidFile := none }) ∧
        stopIsError .stoppedWarning = false) := by
  refine ⟨?_, ?_, ?_, ?_⟩
  · intro h; simp [stop, h, stopIsError]
  · intro c h hc; simp [stop, h, hc, stopIsError]
  · intro c pid h hc hk; simp [stop, h, hc, hk, stopIsError]
  · intro c pid h hc hk; simp [stop, h, hc, hk, stopIsError]

/-- Witness for C3: a corrupt record and an already-dead process, at
concrete states. -/
theorem C3_witness :
    stop (fun _ => .ok) { pidFile := some "oops", logFile := none } =
      (.corruptState, { pidFile := none, logFile := none }) ∧
    stop (fun _ => .processLookupError) { pidFile := some "314", logFile := none } =
      (.stoppedWarning, { pidFile := none, logFile := none }) ∧
    stopIsError .stoppedWarning = false :=
  ⟨((C3_stop_error_handling (fun _ => .ok)
      { pidFile := some "oops", logFile := none }).2.1 "oops" rfl (by decide)).1,
   ((C3_stop_error_handling (fun _ => .processLookupError)
      { pidFile := some "314", logFile := none }).2.2.2 "314" 314 rfl (by decide) rfl).1,
   ((C3_stop_error_handling (fun _ => .processLookupError)
      { pidFile := some "314", logFile := none }).2.2.2 "314" 314 rfl (by decide) rfl).2⟩

/-- Claim C9: once `stop` has parsed an integer PID from an existing
record, every exit path deletes the record file — including the path where
the kill fails with an error other than the process being already dead
(the `finally` clause of the second try). -/
theorem C9_stop_deletes_record_always (kill : Int → KillResult) (fs : FS)
    (c : String) (pid : Int)
    (h1 : fs.pidFile = some c) (h2 : pyIntParse c = some pid) :
    (stop kill fs).2.pidFile = none := by
  simp only [stop, h1, h2]
  cases kill pid <;> rfl

/-- Witness for C9 on the path the spec does not cover: the kill fails
with a generic error, and the record is deleted nevertheless. -/
theorem C9_witness :
    (stop (fun _ => .otherError) { pidFile := some "99", logFile := none }).2.pidFile
      = none :=
  C9_stop_deletes_record_always (fun _ => .otherError)
    { pidFile := some "99", logFile := none } "99" 99 rfl (by decide)

/-! Claims about status. -/

/-- Claim C4: whenever the liveness probe fails (missing record,
unparseable PID, dead process), `status` reports Stopped and the record
file is absent afterwards. -/
theorem C4_status_stale_cleanup (alive : Int → Bool) (fs : FS)
    (h : (is_server_really_running alive fs).1 = false) :
    (status alive fs).1 = .ok .stopped ∧ (status alive fs).2.pidFile = none := by
  have h2 := is_running_false_no_record alive fs h
  constructor
  · simp [status, h]
  · simp [status, h, h2]

/-- Witness for C4: a record naming a dead PID is reported Stopped and
deleted. -/
theorem C4_witness :
    (status (fun _ => false) { pidFile := some "31", logFile := some "x" }).1
        = .ok .stopped ∧
    (status (fun _ => false) { pidFile := some "31", logFile := some "x" }).2.pidFile
        = none :=
  C4_status_stale_cleanup (fun _ => false)
    { pidFile := some "31", logFile := some "x" } (by decide)

/-! Claims about start. -/

/-- Claim C5: `start` with both the foreground and auto flags fails with
the flag-conflict error before touching anything: the file system is
returned unchanged, no launch-type effect happens, and the exit code is
non-zero. -/
theorem C5_flag_conflict_no_side_effects (w : StartWorld) (fs : FS) :
    start w true true fs = (.invalidArgs, fs, []) ∧
    startExitCode .invalidArgs ≠ 0 :=
  ⟨rfl, by decide⟩

/-- Claim C2 counterexample: with log content from an earlier run present,
a successful background start leaves the log file empty — the old content
is not preserved as a prefix, because line 230 opens the log with mode
wb (truncate), not append. -/
theorem C2_counterexample :
    (start wAllOk false false { pidFile := none, logFile := some "old" }).2.1.logFile
        = some "" ∧
    "old".data.isPrefixOf ("" : String).data = false := by decide

/-- Claim C2 (amended): a background start opens the fixed log file for
write with truncation, so at the moment the launch returns the log file
exists with empty content and log content from earlier runs is discarded
rather than preserved. -/
theorem C2_amended (w : StartWorld) (fs : FS)
    (hrun : (is_server_really_running w.alive fs).1 = false)
    (henv : (envSetup w).1 = true) :
    (start w false false fs).2.1.logFile = some "" := by
  rcases hs : w.spawn with _ | pid <;> simp [start, hrun, henv, hs]

/-- Witness for C2 (amended) at a concrete state with prior log content. -/
theorem C2_amended_witness :
    (start wAllOk false false { pidFile := none, logFile := some "old" }).2.1.logFile
      = some "" :=
  C2_amended wAllOk { pidFile := none, logFile := some "old" } (by decide) (by decide)

/-- Claim C10: a background start that fails at the spawn step writes no
PID record, yet the log file has already been created/truncated, because
the log is opened before the spawn is attempted. -/
theorem C10_failed_spawn_truncates_log (w : StartWorld) (fs : FS)
    (h0 : fs.pidFile = none)
    (henv : (envSetup w).1 = true)
    (hsp : w.spawn = none) :
    start w false false fs =
      (.launchFailed, { pidFile := none, logFile := some "" },
        (envSetup w).2 ++ [Ev.spawnServer]) := by
  rcases fs with ⟨pf, lf⟩
  change pf = none at h0
  subst h0
  have hrun : is_server_really_running w.alive ⟨none, lf⟩ = (false, ⟨none, lf⟩) := by
    simp [is_server_really_running]
  simp [start, hrun, henv, hsp]

/-- Witness for C10: the spawn fails while old log content was present;
no record is written and the log is truncated. -/
theorem C10_witness :
    start { wAllOk with spawn := none } false false { pidFile := none, logFile := some "old" }
      = (.launchFailed, { pidFile := none, logFile := some "" },
          (envSetup { wAllOk with spawn := none }).2 ++ [Ev.spawnServer]) :=
  C10_failed_spawn_truncates_log { wAllOk with spawn := none }
    { pidFile := none, logFile := some "old" } rfl (by decide) rfl

/-- Claim C6: if a background `start` succeeds and the launched process is
still alive, a second background `start` with no intervening stop is a
no-op: it reports the running status, performs no setup or launch effect,
and leaves the record file and log file unchanged. -/
theorem C6_start_idempotent (w1 w2 : StartWorld) (fs fs1 : FS) (pid : Nat)
    (evs : List Ev)
    (h1 : start w1 false false fs = (.backgroundStarted pid, fs1, evs))
    (h2 : w2.alive ((pid : Nat) : Int) = true) :
    start w2 false false fs1 = (.alreadyRunning, fs1, []) :=
  start_noop_of_running w2 fs1 pid
    (start_background_success_pidfile w1 fs fs1 pid evs h1) h2

/-- Witness for C6 at a concrete run: first start launches PID 7, the
second is a no-op. -/
theorem C6_witness :
    start wAlive false false { pidFile := some (pyStr 7), logFile := some "" } =
      (.alreadyRunning, { pidFile := some (pyStr 7), logFile := some "" }, []) :=
  C6_start_idempotent wAllOk wAlive { pidFile := none, logFile := some "old" }
    { pidFile := some (pyStr 7), logFile := some "" } 7
    [Ev.pipInstall, Ev.spawnServer] (by decide) rfl

/-! Claim about the configuration display. -/

/-- Claim C7: in the configuration display, an entry whose key contains
API_KEY and whose value is longer than 8 characters is rendered as the
first 4 characters, an ellipsis and the last 4 characters of the value
(inside single quotes); every other entry renders verbatim; a line with no
equals sign renders verbatim instead of failing. -/
theorem C7_config_masking (line : String) (k v : List Char)
    (hline : pyStrip line.data = line.data)
    (hne : line.data.isEmpty = false)
    (hcm : line.data.head? ≠ some '#') :
    (splitEqList line.data = some (k, v) →
      (strContainsSub (String.mk k) "API_KEY" = true → 8 < v.length →
        renderEnvLine line = some (String.mk k ++ "=" ++ squote ++ String.mk (v.take 4)
          ++ "..." ++ String.mk (v.drop (v.length - 4)) ++ squote)) ∧
      (strContainsSub (String.mk k) "API_KEY" = false ∨ v.length ≤ 8 →
        renderEnvLine line = some line)) ∧
    (splitEqList line.data = none → renderEnvLine line = some line) := by
  constructor
  · intro hsplit
    constructor
    · intro hkey hlen
      simp [renderEnvLine, hline, hne, hcm, hsplit, hkey, hlen]
    · intro hother
      rcases hother with hkey | hlen
      · simp [renderEnvLine, hline, hne, hcm, hsplit, hkey]
      · simp [renderEnvLine, hline, hne, hcm, hsplit, Nat.not_lt.mpr hlen]
  · intro hsplit
    simp [renderEnvLine, hline, hne, hcm, hsplit]

/-- Witness for C7: a masked credential entry, a verbatim non-credential
entry, and a verbatim malformed line. -/
theorem C7_witness :
    renderEnvLine "OPENAI_API_KEY=abcdefghijklmnopqrstuvwxyz012345" =
      some (String.mk "OPENAI_API_KEY".data ++ "=" ++ squote
        ++ String.mk ("abcdefghijklmnopqrstuvwxyz012345".data.take 4) ++ "..."
        ++ String.mk ("abcdefghijklmnopqrstuvwxyz012345".data.drop
            ("abcdefghijklmnopqrstuvwxyz012345".data.length - 4)) ++ squote) ∧
    renderEnvLine "PREFERRED_PROVIDER=google" = some "PREFERRED_PROVIDER=google" ∧
    renderEnvLine "malformed line" = some "malformed line" :=
  ⟨((C7_config_masking "OPENAI_API_KEY=abcdefghijklmnopqrstuvwxyz012345"
      "OPENAI_API_KEY".data "abcdefghijklmnopqrstuvwxyz012345".data
      (by decide) (by decide) (by decide)).1 (by decide)).1 (by decide) (by decide),
   ((C7_config_masking "PREFERRED_PROVIDER=google"
      "PREFERRED_PROVIDER".data "google".data
      (by decide) (by decide) (by decide)).1 (by decide)).2 (Or.inl (by decide)),
   (C7_config_masking "malformed line" [] []
      (by decide) (by decide) (by decide)).2 (by decide)⟩

end ccp
